import Mathlib

/-!
Verification of the age Nautilus extension's core orchestration logic.

The Python sources embedded here are src/nautilus-age-extension.py (the main
file) and src/age-nautilus-extension.py (an older sibling whose
encrypt_file/decrypt_file have the same control flow).  Pure fragments of the
code become Lean functions.  Subprocess and filesystem effects (realpath, the
age/tar tool runs, clock reads) are modelled by explicit parameters that stand
for the outcome the operating system delivered, while every branch decision of
the Python code is reproduced literally.  Timestamps are rationals.
-/

namespace AgeExt

/-- Needle-is-a-leading-segment test on lists, mirroring Python str.startswith
after both strings are viewed as character lists. -/
def leadSeg {α : Type} [BEq α] : List α → List α → Bool
  | [], _ => true
  | _ :: _, [] => false
  | a :: as, b :: bs => a == b && leadSeg as bs

/-- Substring containment, mirroring the Python expression needle in hay. -/
def hasSub {α : Type} [BEq α] (needle : List α) : List α → Bool
  | [] => needle.isEmpty
  | a :: t => leadSeg needle (a :: t) || hasSub needle t

/-- Python str.split(sep) for a one-character separator: splits at every
occurrence and keeps empty pieces, so splitting the empty string yields one
empty piece. -/
def splitOnChar (sep : Char) : List Char → List (List Char)
  | [] => [[]]
  | c :: rest =>
    match splitOnChar sep rest with
    | [] => [[c]]
    | h :: t => if c == sep then [] :: h :: t else (c :: h) :: t

/-- Python str.rstrip applied with the padding character: removes the maximal
trailing run of padding characters. -/
def rstripEq : List Char → List Char
  | [] => []
  | c :: rest =>
    match rstripEq rest with
    | [] => if c == '=' then [] else [c]
    | d :: ds => c :: d :: ds

/-! Rate limiting (lines 46-49 and 328-359 of src/nautilus-age-extension.py).
The _failed_attempts table maps each file path to its list of attempt
timestamps; the functions below are the per-target view used by
check_rate_limit and record_failed_attempt. -/

def RATE_LIMIT_MAX_ATTEMPTS : Nat := 3

def RATE_LIMIT_LOCKOUT_SECONDS : ℚ := 30

def RATE_LIMIT_WINDOW_SECONDS : ℚ := 300

/-- Result of one check_rate_limit call: the returned Bool, the pruned attempt
list written back to _failed_attempts, and the wait time passed to show_error
when the call denies. -/
structure RateCheckResult where
  allowed : Bool
  prunedAttempts : List ℚ
  reportedWait : Option ℚ

/-- check_rate_limit (lines 328-351): prune attempts outside the window, then
if at least RATE_LIMIT_MAX_ATTEMPTS remain compare the lockout against the time
since the last retained attempt (Python attempts[-1], here getLast?). -/
def check_rate_limit (attempts : List ℚ) (now : ℚ) : RateCheckResult :=
  let pruned := attempts.filter (fun t => now - t < RATE_LIMIT_WINDOW_SECONDS)
  let verdict : Bool × Option ℚ :=
    if RATE_LIMIT_MAX_ATTEMPTS ≤ pruned.length then
      match pruned.getLast? with
      | some lastAttempt =>
        let wait := RATE_LIMIT_LOCKOUT_SECONDS - (now - lastAttempt)
        if 0 < wait then (false, some wait) else (true, none)
      | none => (true, none)
    else (true, none)
  ⟨verdict.1, pruned, verdict.2⟩

/-- record_failed_attempt (lines 353-355): append the current time to the
target's attempt list. -/
def record_failed_attempt (attempts : List ℚ) (now : ℚ) : List ℚ :=
  attempts ++ [now]

/-! Path validation (validate_path, lines 292-326). os.path.realpath is
filesystem state, modelled as an oracle returning the canonical form, or none
when it raises OSError or ValueError. -/

def dangerousRoots : List String :=
  ["/bin", "/sbin", "/usr", "/etc", "/var", "/boot", "/root"]

/-- os.path.isabs on POSIX: the path starts with the separator. -/
def isAbsPath (path : String) : Bool :=
  leadSeg ['/'] path.toList

/-- The check that two dots appear in resolved.split(os.sep). -/
def hasTraversalSeg (resolved : String) : Bool :=
  (splitOnChar '/' resolved.toList).any (fun seg => seg == "..".toList)

/-- The dangerous-directory check: resolved.startswith(root + os.sep) or
resolved == root for one of the listed roots. -/
def isDangerousPath (resolved : String) : Bool :=
  dangerousRoots.any (fun root =>
    leadSeg (root ++ "/").toList resolved.toList || resolved == root)

/-- validate_path (lines 292-326), with realpath supplied as an oracle. -/
def validate_path (resolve : String → Option String) (path : String) : Bool :=
  if !(isAbsPath path) then false
  else
    match resolve path with
    | none => false
    | some resolved =>
      if hasTraversalSeg resolved then false
      else if isDangerousPath resolved then false
      else true

/-! Archive member validation inside standalone_decrypt (lines 1460-1483).
The member list is what tar -tzf printed, one path per line; listExitCode is
that subprocess's exit code.  The extraction subprocess tar -xzf runs only when
the outcome is extracted; a rejected outcome is the ValueError raised before
it, so no file has been written to the destination. -/

/-- The per-member test: member.startswith(slash) or two dots in member. -/
def suspiciousMember (m : String) : Bool :=
  leadSeg ['/'] m.toList || hasSub "..".toList m.toList

inductive ExtractOutcome where
  | extracted
  | rejected (member : String)
deriving DecidableEq

/-- The listing-then-extraction step of standalone_decrypt: when the listing
succeeded, every member is scanned and the first suspicious one aborts the
whole operation before tar -xzf starts. -/
def extract_step (listExitCode : Int) (members : List String) : ExtractOutcome :=
  if listExitCode = 0 then
    match members.find? suspiciousMember with
    | some m => .rejected m
    | none => .extracted
  else .extracted

/-! Age header verification (verify_age_file, lines 795-805) and the
decryption workflow trace (standalone_decrypt, lines 1410-1498). -/

/-- The ASCII bytes of the age format marker. -/
def AGE_HEADER_MARKER : List Nat :=
  "age-encryption.org/v1".toList.map Char.toNat

/-- verify_age_file: the marker occurs within the first 100 bytes. -/
def verify_age_file (content : List Nat) : Bool :=
  hasSub AGE_HEADER_MARKER (content.take 100)

/-- One input file of standalone_decrypt: its on-disk bytes and the outcome
the decryption subprocess would deliver if it were invoked. -/
structure DecFile where
  content : List Nat
  decryptOk : Bool

instance : Inhabited DecFile := ⟨⟨[], false⟩⟩

/-- Which files had decrypt_file invoked and which had record_failed_attempt
called, identified by position in the input list. -/
structure DecTrace where
  decryptInvoked : List Nat
  attemptsRecorded : List Nat

/-- standalone_decrypt, as the trace of decryption invocations and recorded
rate-limit attempts.  The code first runs check_rate_limit on every file and
returns if any is denied, then runs verify_age_file on every file and returns
with an error dialog if any fails, then asks for the password and returns if
none is given; only then does the per-file loop invoke decrypt_file on each
file, recording a failed attempt exactly for the files whose decryption
failed. -/
def standalone_decrypt (rateAllowed : Nat → Bool) (passwordGiven : Bool)
    (files : List DecFile) : DecTrace :=
  if !((List.range files.length).all rateAllowed) then ⟨[], []⟩
  else if files.any (fun f => !(verify_age_file f.content)) then ⟨[], []⟩
  else if !passwordGiven then ⟨[], []⟩
  else
    ⟨List.range files.length,
     (List.range files.length).filter (fun i => !((files.getD i default).decryptOk))⟩

/-! The PTY-driven age tool wrappers encrypt_file (lines 639-708) and
decrypt_file (lines 710-793); the sibling file's encrypt_file (lines 397-464
of src/age-nautilus-extension.py) has the same branch structure.  A ToolRun
describes how the subprocess interaction ended and whether a file exists at
outputPath at that moment; the osError constructor also covers the generic
exception handler, which likewise performs no cleanup in encrypt_file. -/

inductive ToolRun where
  | completed (exitCode : Int) (outputExists : Bool)
  | timedOut (outputExists : Bool)
  | osError (outputExists : Bool)
deriving DecidableEq

/-- The returned Bool of the wrapper together with whether a file still exists
at outputPath after it returns. -/
structure FileOpResult where
  success : Bool
  outputRemains : Bool
deriving DecidableEq

/-- encrypt_file: success needs exit code 0 and an existing output; the
completed-run failure branch removes a leftover output, but the timeout and
OS-error handlers return False without removing it. -/
def encrypt_file : ToolRun → FileOpResult
  | .completed exitCode outputExists =>
    if exitCode == 0 && outputExists then ⟨true, true⟩ else ⟨false, false⟩
  | .timedOut outputExists => ⟨false, outputExists⟩
  | .osError outputExists => ⟨false, outputExists⟩

/-- decrypt_file: same success condition, and every failure handler, including
timeout and OS error, removes a leftover output file. -/
def decrypt_file : ToolRun → FileOpResult
  | .completed exitCode outputExists =>
    if exitCode == 0 && outputExists then ⟨true, true⟩ else ⟨false, false⟩
  | .timedOut _ => ⟨false, false⟩
  | .osError _ => ⟨false, false⟩

/-! Software passphrase generation (generate_passphrase, lines 915-925, over
PASSPHRASE_WORDLIST, lines 120-276).  secrets.choice is modelled by an index
oracle reduced modulo the corpus size. -/

def PASSPHRASE_WORDLIST : List String := [
    "about", "above", "acid", "actor", "adopt", "adult", "after", "again",
    "agent", "agree", "ahead", "alarm", "album", "alert", "alien", "alive",
    "alley", "allow", "alone", "alpha", "alter", "amino", "among", "ample",
    "angel", "anger", "angle", "angry", "ankle", "apart", "apple", "apply",
    "arena", "argue", "armor", "arrow", "aside", "asset", "atlas", "audio",
    "audit", "avoid", "award", "bacon", "badge", "badly", "baker", "bases",
    "basic", "basin", "basis", "batch", "beach", "beard", "beast", "began",
    "begin", "begun", "being", "belly", "below", "bench", "berry", "bible",
    "bikes", "birds", "birth", "black", "blade", "blame", "blank", "blast",
    "blaze", "bleed", "blend", "bless", "blind", "blink", "block", "blood",
    "bloom", "blown", "blues", "blunt", "board", "boast", "boats", "bored",
    "bonus", "boost", "booth", "boots", "bound", "boxer", "brain", "brand",
    "brass", "brave", "bread", "break", "breed", "brick", "bride", "brief",
    "bring", "brisk", "broad", "broke", "brook", "brown", "brush", "build",
    "built", "bunch", "burst", "cabin", "cable", "camel", "canal", "candy",
    "canoe", "cards", "cargo", "carry", "carve", "catch", "cause", "cease",
    "cedar", "chain", "chair", "chalk", "champ", "chaos", "charm", "chart",
    "chase", "cheap", "check", "cheek", "chess", "chest", "chief", "child",
    "chill", "china", "chips", "chord", "chose", "chunk", "civic", "civil",
    "claim", "clash", "class", "clean", "clear", "clerk", "click", "cliff",
    "climb", "cling", "cloak", "clock", "clone", "close", "cloth", "cloud",
    "clown", "clubs", "coach", "coast", "codes", "comet", "comic", "coral",
    "could", "count", "coupe", "court", "cover", "crack", "craft", "crane",
    "crash", "crawl", "crazy", "cream", "creek", "creep", "crest", "crime",
    "crisp", "cross", "crowd", "crown", "crude", "cruel", "crush", "cubic",
    "curve", "cycle", "daily", "dairy", "dance", "darts", "dealt", "death",
    "debut", "decal", "decay", "decor", "decoy", "delta", "demon", "denim",
    "dense", "depot", "depth", "derby", "desks", "devil", "diary", "digit",
    "diner", "dirty", "disco", "ditch", "diver", "dodge", "doing", "donor",
    "doubt", "dough", "downs", "dozen", "draft", "drain", "drake", "drama",
    "drank", "drape", "drawl", "drawn", "dream", "dress", "dried", "drift",
    "drill", "drink", "drive", "droit", "drown", "drugs", "drums", "drunk",
    "dusty", "dwarf", "eager", "eagle", "early", "earth", "easel", "eaten",
    "eaves", "ebony", "edges", "eight", "elbow", "elder", "elect", "elite",
    "empty", "ended", "enemy", "enjoy", "enter", "entry", "equal", "equip",
    "error", "erupt", "essay", "evade", "event", "every", "exact", "exams",
    "excel", "exile", "exist", "extra", "fable", "facts", "faint", "fairy",
    "faith", "false", "fancy", "fatal", "fault", "favor", "feast", "fence",
    "ferry", "fetch", "fever", "fiber", "field", "fifth", "fifty", "fight",
    "films", "final", "finds", "fired", "firms", "first", "fixed", "flags",
    "flame", "flank", "flash", "flask", "flock", "flood", "floor", "flora",
    "flour", "fluid", "flush", "flute", "focal", "focus", "foggy", "folks",
    "force", "forge", "forms", "forth", "forum", "fossil", "found", "frame",
    "frank", "fraud", "fresh", "fried", "front", "frost", "fruit", "fully",
    "funds", "funny", "fused", "gains", "gamma", "gauge", "gears", "geese",
    "genre", "ghost", "giant", "gifts", "girls", "given", "gives", "gland",
    "glass", "gleam", "glide", "globe", "glory", "gloss", "glove", "glyph",
    "goals", "goats", "going", "goods", "goose", "grace", "grade", "grain",
    "grand", "grant", "grape", "graph", "grasp", "grass", "grave", "greed",
    "greek", "green", "greet", "grief", "grill", "grind", "grips", "gross",
    "group", "grove", "grown", "guard", "guess", "guest", "guide", "guild",
    "guilt", "habit", "hairs", "hands", "handy", "happy", "hardy", "harms",
    "harsh", "haste", "hasty", "hatch", "haven", "havoc", "hazel", "heads",
    "heals", "heard", "heart", "heavy", "hedge", "heels", "heist", "hello",
    "helps", "herbs", "hints", "hobby", "holds", "holes", "homer", "honey",
    "honor", "hooks", "hopes", "horse", "hosts", "hotel", "hound", "hours",
    "house", "hover", "human", "humid", "humor", "hurry", "icons", "ideal",
    "ideas", "image", "index", "indie", "inner", "input", "intel", "inter",
    "intro", "ionic", "irish", "irony", "issue", "items", "ivory", "jeans",
    "jewel", "joins", "joint", "joker", "jolly", "jones", "judge", "juice",
    "jumbo", "jumps", "kicks", "kinds", "kings", "kites", "knack", "knees",
    "knife", "knock", "knots", "known", "label", "labor", "laced", "lakes",
    "lance", "lands", "lanes", "large", "laser", "lasts", "later", "latex",
    "latin", "laugh", "layer", "leads", "leaks", "leapt", "learn", "lease",
    "least", "leave", "ledge", "legal", "lemon", "level", "lever", "light",
    "liked", "limbs", "limit", "lined", "linen", "liner", "lines", "links",
    "lions", "lists", "lived", "liver", "lives", "loads", "loans", "lobby",
    "local", "locks", "lodge", "lofty", "logic", "logos", "looks", "loops",
    "loose", "lords", "lorry", "loser", "lotus", "loved", "lover", "lower",
    "loyal", "lucky", "lunar", "lunch", "lungs", "lying", "lyric", "macro",
    "magic", "major", "maker", "males", "manor", "maple", "march", "marks",
    "marsh", "masks", "match", "maybe", "mayor", "meals", "means", "media",
    "meets", "melon", "mercy", "merge", "merit", "merry", "messy", "metal",
    "meter", "micro", "might", "miles", "mills", "miner", "minor", "minus",
    "mints", "mixed", "model", "modem", "modes", "moist", "moldy", "money",
    "monks", "month", "moods", "moons", "moral", "motor", "motto", "mount",
    "mouse", "mouth", "moved", "mover", "moves", "movie", "much", "muddy",
    "multi", "mural", "music", "myths", "naive", "named", "names", "nanny",
    "nasty", "naval", "needs", "nerve", "never", "newly", "nexus", "night",
    "ninja", "ninth", "noble", "nodes", "noise", "north", "notch", "noted",
    "notes", "novel", "nurse", "occur", "ocean", "olive", "omega", "onion",
    "opens", "opera", "optic", "orbit", "order", "organ", "other", "ought",
    "outer", "owned", "owner", "oxide", "ozone", "paced", "packs", "pages",
    "pains", "paint", "pairs", "palms", "panel", "panic", "pants", "papal",
    "paper", "parks", "parts", "party", "pasta", "paste", "patch", "paths",
    "patio", "pause", "peace", "peaks", "pearl", "pedal", "penny", "perks",
    "pesos", "petty", "phase", "phone", "photo", "piano", "picks", "piece",
    "piety", "pilot", "pinch", "pines", "pipes", "pitch", "pixel", "pizza",
    "place", "plain", "plane", "plans", "plant", "plate", "plays", "plaza",
    "plead", "plots", "pluck", "plugs", "plumb", "plume", "plump", "plums",
    "plus", "poems", "poets", "point", "poker", "polar", "poles", "polls",
    "ponds", "pools", "porch", "ports", "posed", "poses", "posts", "pouch",
    "pound", "power", "press", "preys", "price", "pride", "prime", "print",
    "prior", "prism", "prize", "probe", "prone", "proof", "props", "prose",
    "proud", "prove", "proxy", "psalm", "pulse", "pumps", "punch", "pupil",
    "puppy", "purse", "queen", "query", "quest", "queue", "quick", "quiet",
    "quilt", "quota", "quote", "radar", "radio", "rails", "rains", "raise",
    "rally", "ranch", "range", "ranks", "rapid", "ratio", "raven", "razor",
    "reach", "reads", "ready", "realm", "rebel", "refer", "reign", "relax",
    "relay", "relic", "remix", "renal", "renew", "repay", "reply", "reset",
    "resin", "retro", "rider", "ridge", "rifle", "right", "rigid", "rings",
    "riots", "risky", "ritzy", "rival", "river", "roads", "roast", "robot",
    "rocks", "rocky", "roger", "roles", "rolls", "roman", "roofs", "rooms",
    "roots", "roses", "rouge", "rough", "round", "route", "royal", "rugby",
    "ruins", "ruled", "ruler", "rules", "rumor", "rural", "rusty", "sadly",
    "safer", "saint", "salad", "sales", "salon", "salsa", "salty", "sands",
    "sandy", "satin", "sauce", "saved", "saves", "scale", "scarf", "scary",
    "scene", "scent", "scope", "score", "scout", "scrap", "seals", "seats",
    "seeds", "seeks", "seems", "seize", "sense", "serve", "setup", "seven",
    "shade", "shaft", "shake", "shall", "shame", "shape", "share", "shark",
    "sharp", "shave", "sheep", "sheer", "sheet", "shelf", "shell", "shift",
    "shine", "shiny", "ships", "shirt", "shock", "shoes", "shoot", "shops",
    "shore", "short", "shots", "shout", "shown", "shows", "sides", "siege",
    "sight", "sigma", "signs", "silly", "since", "sites", "sixth", "sixty",
    "sized", "sizes", "skill", "skins", "skirt", "skull", "slate", "slave",
    "sleek", "sleep", "slice", "slide", "slope", "slump", "small", "smart",
    "smell", "smile", "smoke", "snake", "snaps", "sneak", "snowy", "sober",
    "socks", "solar", "solid", "solve", "songs", "sonic", "sorry", "sorts",
    "souls", "sound", "south", "space", "spare", "spark", "spawn", "speak",
    "spear", "specs", "speed", "spell", "spend", "spent", "spice", "spicy",
    "spike", "spine", "split", "spoke", "spoon", "sport", "spots", "spray",
    "squad", "stack", "staff", "stage", "stain", "stair", "stake", "stamp",
    "stand", "stark", "stars", "start", "state", "stays", "steak", "steal",
    "steam", "steel", "steep", "steer", "stems", "steps", "stick", "stiff",
    "still", "stock", "stomp", "stone", "stood", "stool", "store", "storm",
    "story", "stout", "stove", "strap", "straw", "strip", "stuck", "study",
    "stuff", "style", "sugar", "suite", "sunny", "super", "surge", "swamp",
    "swans", "swear", "sweat", "sweep", "sweet", "swept", "swift", "swing",
    "swiss", "sword", "syrup", "table", "taken", "tales", "talks", "tanks",
    "tapes", "tasks", "taste", "tasty", "taxes", "teach", "teams", "tears",
    "teens", "teeth", "tempo", "tends", "tense", "tenor", "tenth", "terms",
    "tests", "texas", "texts", "thank", "theft", "theme", "thick", "thief",
    "thing", "think", "third", "those", "three", "threw", "throw", "thumb",
    "tiger", "tight", "tiles", "timer", "times", "tints", "tired", "titan",
    "title", "toast", "today", "token", "tombs", "toned", "tones", "tools",
    "tooth", "topic", "torch", "total", "touch", "tough", "tours", "tower",
    "towns", "toxic", "trace", "track", "tract", "trade", "trail", "train",
    "trait", "trash", "treat", "trees", "trend", "trial", "tribe", "trick",
    "tried", "tries", "trims", "trips", "troop", "truck", "truly", "trump",
    "trunk", "trust", "truth", "tulip", "tumor", "tunes", "turbo", "turns",
    "tutor", "tweed", "twice", "twins", "twist", "typed", "types", "uncle",
    "under", "unify", "union", "unite", "units", "unity", "until", "upper",
    "urban", "urged", "usage", "users", "using", "usual", "valid", "value",
    "valve", "vault", "vegas", "venom", "venue", "venus", "verbs", "verse",
    "video", "views", "vinyl", "viola", "viral", "virus", "visit", "vista",
    "vital", "vivid", "vocal", "vodka", "voice", "volts", "voted", "voter",
    "votes", "wages", "wagon", "waist", "walks", "walls", "waltz", "wants",
    "waste", "watch", "water", "watts", "waves", "wears", "weary", "weeds",
    "weeks", "weird", "wells", "welsh", "whale", "wheat", "wheel", "where",
    "which", "while", "white", "whole", "whose", "widen", "wider", "width",
    "winds", "wines", "wings", "wiped", "wires", "witch", "wives", "woman",
    "women", "woods", "words", "works", "world", "worms", "worry", "worse",
    "worst", "worth", "would", "wound", "woven", "wrath", "wreck", "wrist",
    "write", "wrong", "wrote", "yacht", "yards", "years", "yeast", "yield",
    "young", "yours", "youth", "zebra", "zeros", "zesty", "zones"]

/-- generate_passphrase: draw numWords corpus entries and join with hyphens. -/
def generate_passphrase (pick : Nat → Nat) (numWords : Nat) : String :=
  let words := (List.range numWords).map (fun i =>
    PASSPHRASE_WORDLIST.getD (pick i % PASSPHRASE_WORDLIST.length) "")
  String.intercalate "-" words

/-- A token is all lowercase ASCII letters. -/
def isLowerWord (s : String) : Bool :=
  s.toList.all (fun c => Nat.ble 97 c.toNat && Nat.ble c.toNat 122)

/-! HSM passphrase generation (generate_passphrase_from_hsm, lines 1031-1131,
with PKCS11_MODULE_PATHS and PKCS11_RANDOM_BYTES, lines 53-61).  The
pkcs11-tool run is modelled by its exit code and the bytes read back from the
temporary output file. -/

def PKCS11_MODULE_PATHS : List String := [
  "/usr/lib/libeToken.so",
  "/usr/lib64/libeToken.so",
  "/opt/eToken/lib/libeToken.so",
  "/usr/lib/x86_64-linux-gnu/libeToken.so",
  "/usr/lib/i386-linux-gnu/libeToken.so"]

def PKCS11_RANDOM_BYTES : Nat := 256

/-- validate_pkcs11_module_path (lines 929-944): nonempty and on the fixed
allow-list. -/
def validate_pkcs11_module_path (path : String) : Bool :=
  path != "" && PKCS11_MODULE_PATHS.contains path

/-- The urlsafe base64 alphabet used by base64.urlsafe_b64encode. -/
def B64URL_ALPHABET : List Char :=
  "ABCDEFGHIJKLMNOPQRSTUVWXYZabcdefghijklmnopqrstuvwxyz0123456789-_".toList

def b64Char (n : Nat) : Char := B64URL_ALPHABET.getD (n % 64) 'A'

/-- base64.urlsafe_b64encode on a byte list, padding included. -/
def b64UrlEncode : List Nat → List Char
  | b1 :: b2 :: b3 :: rest =>
    b64Char (b1 / 4) :: b64Char (b1 % 4 * 16 + b2 / 16) ::
      b64Char (b2 % 16 * 4 + b3 / 64) :: b64Char (b3 % 64) :: b64UrlEncode rest
  | [b1, b2] => [b64Char (b1 / 4), b64Char (b1 % 4 * 16 + b2 / 16), b64Char (b2 % 16 * 4), '=']
  | [b1] => [b64Char (b1 / 4), b64Char (b1 % 4 * 16), '=', '=']
  | [] => []

/-- generate_passphrase_from_hsm: reject a module path off the allow-list,
treat a non-zero tool exit as failure, reject when the bytes read back are not
exactly PKCS11_RANDOM_BYTES many, and otherwise return the urlsafe base64
encoding with the padding stripped. -/
def generate_passphrase_from_hsm (modulePath : String) (toolExitCode : Int)
    (readBytes : List Nat) : Option (List Char) :=
  if !(validate_pkcs11_module_path modulePath) then none
  else if toolExitCode != 0 then none
  else if readBytes.length != PKCS11_RANDOM_BYTES then none
  else some (rstripEq (b64UrlEncode readBytes))

/-! The encryption workflow standalone_encrypt (lines 1260-1407); the HSM
variant standalone_hsm (lines 1501-1672) repeats the same body and the same
finally block verbatim.  The artifacts tracked are the staging directory
(temp_dir) and the intermediate tar.gz archive (tar_path); each flag below
tells whether the corresponding workflow step succeeded, a false flag meaning
the exception (or False return) the code handles at that point. -/

structure EncArtifacts where
  stagingVarSet : Bool
  stagingOnDisk : Bool
  tarVarSet : Bool
  tarOnDisk : Bool
  publishedOutput : Bool
deriving DecidableEq

def encInitial : EncArtifacts := ⟨false, false, false, false, false⟩

/-- The try-block of standalone_encrypt: mkdtemp, the cp loop, mkstemp plus
tar -czf, encrypt_file, unconditional removal of the tar file with tar_path
set back to None, then shutil.move on success.  An exception at any point
jumps straight to the finally block with the state reached so far; the mat2
pass touches neither tracked artifact and is omitted. -/
def standalone_encrypt_body (mkdtempOk copyOk tarCmdOk encryptOk moveOk : Bool) :
    EncArtifacts :=
  if !mkdtempOk then encInitial else
  let afterStaging : EncArtifacts := ⟨true, true, false, false, false⟩
  if !copyOk then afterStaging else
  let afterMkstemp : EncArtifacts := ⟨true, true, true, true, false⟩
  if !tarCmdOk then afterMkstemp else
  let afterTarRemoved : EncArtifacts := ⟨true, true, false, false, false⟩
  if !encryptOk then afterTarRemoved else
  if !moveOk then afterTarRemoved else
  { afterTarRemoved with publishedOutput := true }

/-- The finally block: remove the tar file when tar_path is still set, then
remove the staging directory when temp_dir was set. -/
def standalone_encrypt_cleanup (s : EncArtifacts) : EncArtifacts :=
  let s1 := if s.tarVarSet then { s with tarOnDisk := false } else s
  if s1.stagingVarSet then { s1 with stagingOnDisk := false } else s1

/-- standalone_encrypt: the try-block followed unconditionally by the finally
block. -/
def standalone_encrypt (mkdtempOk copyOk tarCmdOk encryptOk moveOk : Bool) :
    EncArtifacts :=
  standalone_encrypt_cleanup
    (standalone_encrypt_body mkdtempOk copyOk tarCmdOk encryptOk moveOk)

/-! Helper lemmas shared by the claim theorems. -/

/-- In a list sorted non-decreasingly, every element is at most the last one. -/
theorem le_getLast_of_pairwise {l : List ℚ} {x : ℚ}
    (hp : l.Pairwise (· ≤ ·)) (hx : l.getLast? = some x) :
    ∀ t ∈ l, t ≤ x := by
  obtain ⟨ys, rfl⟩ := List.getLast?_eq_some_iff.mp hx
  intro t ht
  rcases List.mem_append.mp ht with h | h
  · exact (List.pairwise_append.mp hp).2.2 t h x (List.mem_singleton_self x)
  · rw [List.mem_singleton.mp h]

/-- The pruned list written back by check_rate_limit is exactly the filter of
the attempts strictly inside the window. -/
theorem check_rate_limit_pruned (attempts : List ℚ) (now : ℚ) :
    (check_rate_limit attempts now).prunedAttempts
      = attempts.filter (fun t => now - t < RATE_LIMIT_WINDOW_SECONDS) := rfl

/-- Unfolding of check_rate_limit in the at-capacity case. -/
theorem check_rate_limit_eq (attempts : List ℚ) (now lastAttempt : ℚ)
    (hlast : (attempts.filter (fun t => now - t < RATE_LIMIT_WINDOW_SECONDS)).getLast?
        = some lastAttempt)
    (hlen : RATE_LIMIT_MAX_ATTEMPTS
        ≤ (attempts.filter (fun t => now - t < RATE_LIMIT_WINDOW_SECONDS)).length) :
    check_rate_limit attempts now =
      if 0 < RATE_LIMIT_LOCKOUT_SECONDS - (now - lastAttempt) then
        ⟨false, attempts.filter (fun t => now - t < RATE_LIMIT_WINDOW_SECONDS),
          some (RATE_LIMIT_LOCKOUT_SECONDS - (now - lastAttempt))⟩
      else
        ⟨true, attempts.filter (fun t => now - t < RATE_LIMIT_WINDOW_SECONDS), none⟩ := by
  simp only [check_rate_limit]
  rw [if_pos hlen, hlast]
  dsimp only
  by_cases h : 0 < RATE_LIMIT_LOCKOUT_SECONDS - (now - lastAttempt)
  · rw [if_pos h, if_pos h]
  · rw [if_neg h, if_neg h]

/-- C3: on each call the rate limiter first drops the attempts outside
RATE_LIMIT_WINDOW_SECONDS; when at least RATE_LIMIT_MAX_ATTEMPTS remain, it
denies with remaining time RATE_LIMIT_LOCKOUT_SECONDS minus the time since
the most recent retained attempt while that quantity is positive, and allows
once RATE_LIMIT_LOCKOUT_SECONDS have elapsed since the most recent attempt. -/
theorem check_rate_limit_lockout (attempts : List ℚ) (now lastAttempt : ℚ)
    (hpair : attempts.Pairwise (· ≤ ·))
    (hlast : (attempts.filter (fun t => now - t < RATE_LIMIT_WINDOW_SECONDS)).getLast?
        = some lastAttempt)
    (hlen : RATE_LIMIT_MAX_ATTEMPTS
        ≤ (attempts.filter (fun t => now - t < RATE_LIMIT_WINDOW_SECONDS)).length) :
    (check_rate_limit attempts now).prunedAttempts
        = attempts.filter (fun t => now - t < RATE_LIMIT_WINDOW_SECONDS)
    ∧ (∀ t ∈ (check_rate_limit attempts now).prunedAttempts, t ≤ lastAttempt)
    ∧ (0 < RATE_LIMIT_LOCKOUT_SECONDS - (now - lastAttempt) →
        (check_rate_limit attempts now).allowed = false
        ∧ (check_rate_limit attempts now).reportedWait
            = some (RATE_LIMIT_LOCKOUT_SECONDS - (now - lastAttempt)))
    ∧ (RATE_LIMIT_LOCKOUT_SECONDS ≤ now - lastAttempt →
        (check_rate_limit attempts now).allowed = true) := by
  have hmax : ∀ t ∈ (check_rate_limit attempts now).prunedAttempts, t ≤ lastAttempt := by
    rw [check_rate_limit_pruned]
    exact le_getLast_of_pairwise (hpair.filter _) hlast
  have hdef := check_rate_limit_eq attempts now lastAttempt hlast hlen
  by_cases h : 0 < RATE_LIMIT_LOCKOUT_SECONDS - (now - lastAttempt)
  · rw [hdef, if_pos h] at *
    exact ⟨rfl, hmax, fun _ => ⟨rfl, rfl⟩, fun hle => by exfalso; linarith⟩
  · rw [hdef, if_neg h] at *
    exact ⟨rfl, hmax, fun hpos => absurd hpos h, fun _ => rfl⟩

/-- Witness for C3 at a concrete state: three attempts at times 0, 1, 2; a
check at time 10 is denied with 22 seconds reported, a check at time 40 is
allowed. -/
theorem check_rate_limit_lockout_witness :
    (check_rate_limit [0, 1, 2] 10).allowed = false
    ∧ (check_rate_limit [0, 1, 2] 10).reportedWait = some 22
    ∧ (check_rate_limit [0, 1, 2] 40).allowed = true := by
  have h1 := check_rate_limit_lockout [0, 1, 2] 10 2
    (by norm_num [List.pairwise_cons])
    (by norm_num [List.filter_cons, RATE_LIMIT_WINDOW_SECONDS])
    (by norm_num [List.filter_cons, RATE_LIMIT_WINDOW_SECONDS, RATE_LIMIT_MAX_ATTEMPTS])
  have h2 := check_rate_limit_lockout [0, 1, 2] 40 2
    (by norm_num [List.pairwise_cons])
    (by norm_num [List.filter_cons, RATE_LIMIT_WINDOW_SECONDS])
    (by norm_num [List.filter_cons, RATE_LIMIT_WINDOW_SECONDS, RATE_LIMIT_MAX_ATTEMPTS])
  have hpos : (0:ℚ) < RATE_LIMIT_LOCKOUT_SECONDS - ((10:ℚ) - 2) := by
    norm_num [RATE_LIMIT_LOCKOUT_SECONDS]
  refine ⟨(h1.2.2.1 hpos).1, ?_, h2.2.2.2 (by norm_num [RATE_LIMIT_LOCKOUT_SECONDS])⟩
  rw [(h1.2.2.1 hpos).2]
  norm_num [RATE_LIMIT_LOCKOUT_SECONDS]

/-- C10: immediately after a rate-limit check, every timestamp retained for
the target is strictly within RATE_LIMIT_WINDOW_SECONDS of the check time;
recording a failure only appends the current time, so a non-decreasing
attempt list stays non-decreasing under both operations. -/
theorem rate_limit_state_invariant (attempts : List ℚ) (now : ℚ)
    (hpair : attempts.Pairwise (· ≤ ·)) (hbound : ∀ t ∈ attempts, t ≤ now) :
    (∀ t ∈ (check_rate_limit attempts now).prunedAttempts,
        now - t < RATE_LIMIT_WINDOW_SECONDS)
    ∧ ((check_rate_limit attempts now).prunedAttempts).Pairwise (· ≤ ·)
    ∧ record_failed_attempt attempts now = attempts ++ [now]
    ∧ (record_failed_attempt attempts now).Pairwise (· ≤ ·) := by
  refine ⟨?_, ?_, rfl, ?_⟩
  · rw [check_rate_limit_pruned]
    intro t ht
    exact of_decide_eq_true (List.mem_filter.mp ht).2
  · rw [check_rate_limit_pruned]
    exact hpair.filter _
  · refine List.pairwise_append.mpr ⟨hpair, List.pairwise_singleton _ _, ?_⟩
    intro a ha b hb
    rw [List.mem_singleton.mp hb]
    exact hbound a ha

/-- Witness for C10 at a concrete state: attempts at times 1 and 2 checked
and recorded at time 5. -/
theorem rate_limit_state_invariant_witness :
    (∀ t ∈ (check_rate_limit [1, 2] 5).prunedAttempts,
        5 - t < RATE_LIMIT_WINDOW_SECONDS)
    ∧ ((check_rate_limit [1, 2] 5).prunedAttempts).Pairwise (· ≤ ·)
    ∧ record_failed_attempt [1, 2] 5 = [1, 2] ++ [5]
    ∧ (record_failed_attempt [1, 2] 5).Pairwise (· ≤ ·) :=
  rate_limit_state_invariant [1, 2] 5 (by norm_num [List.pairwise_cons])
    (by intro t ht; fin_cases ht <;> norm_num)

/-- C8: the path validator rejects non-absolute paths, and rejects any path
whose canonical (symlink-resolved) form contains a parent-directory segment
or lies under or equals one of the fixed system-critical roots. -/
theorem validate_path_rejects (resolve : String → Option String) (path : String) :
    (isAbsPath path = false → validate_path resolve path = false)
    ∧ (∀ resolved, resolve path = some resolved →
        (hasTraversalSeg resolved = true → validate_path resolve path = false)
        ∧ (isDangerousPath resolved = true → validate_path resolve path = false)) := by
  refine ⟨fun h => ?_, fun resolved hres => ⟨fun h => ?_, fun h => ?_⟩⟩
  · simp [validate_path, h]
  · cases habs : isAbsPath path <;> simp [validate_path, habs, hres, h]
  · cases habs : isAbsPath path <;>
      cases ht : hasTraversalSeg resolved <;>
        simp [validate_path, habs, hres, ht, h]

/-- Witness for C8: a relative path, a canonical form with a parent segment,
and a file under a system root are all rejected. -/
theorem validate_path_rejects_witness :
    validate_path (fun s => some s) "relative/path" = false
    ∧ validate_path (fun _ => some "/a/../b") "/home/u/x" = false
    ∧ validate_path (fun s => some s) "/etc/passwd" = false :=
  ⟨(validate_path_rejects (fun s => some s) "relative/path").1 (by decide),
   ((validate_path_rejects (fun _ => some "/a/../b") "/home/u/x").2 "/a/../b" rfl).1
     (by decide),
   ((validate_path_rejects (fun s => some s) "/etc/passwd").2 "/etc/passwd" rfl).2
     (by decide)⟩

/-- C2 counterexample: when the member listing subprocess exits non-zero,
the code skips the member validation entirely and still runs the extraction
subprocess, so an archive containing the traversal member ../evil reaches
extraction with nothing rejected — the claim's unconditional guarantee
fails. -/
theorem extract_listing_failure_extracts :
    suspiciousMember "../evil" = true
    ∧ extract_step 2 ["../evil"] = .extracted := by
  exact ⟨by decide, rfl⟩

/-- C2 amended: when the member listing subprocess succeeds (exit code 0),
any member that is an absolute path or contains a parent-directory segment
makes the extraction step reject the whole archive before the extraction
subprocess runs and before any file is written; when the listing fails, the
validation is skipped and extraction proceeds unvalidated. -/
theorem extract_rejects_suspicious (listExitCode : Int) (members : List String)
    (m : String) (hexit : listExitCode = 0) (hm : m ∈ members)
    (hsus : suspiciousMember m = true) :
    extract_step listExitCode members ≠ .extracted
    ∧ ∃ bad, extract_step listExitCode members = .rejected bad
        ∧ bad ∈ members ∧ suspiciousMember bad = true := by
  subst hexit
  have hfind : (members.find? suspiciousMember).isSome := by
    rw [List.find?_isSome]
    exact ⟨m, hm, hsus⟩
  obtain ⟨bad, hbad⟩ := Option.isSome_iff_exists.mp hfind
  have hstep : extract_step 0 members = .rejected bad := by
    simp [extract_step, hbad]
  rw [hstep]
  exact ⟨by simp, bad, rfl, List.mem_of_find?_eq_some hbad, List.find?_some hbad⟩

/-- Witness for C2: an archive whose only member climbs out of the
destination is rejected. -/
theorem extract_rejects_suspicious_witness :
    extract_step 0 ["../evil"] ≠ .extracted
    ∧ ∃ bad, extract_step 0 ["../evil"] = .rejected bad
        ∧ bad ∈ ["../evil"] ∧ suspiciousMember bad = true :=
  extract_rejects_suspicious 0 ["../evil"] "../evil" rfl (by simp) (by decide)

/-- C4: a file whose first 100 bytes lack the age marker makes the whole
decryption run stop at the verification stage: no file, in particular not the
invalid one, has the decryption subprocess invoked or a rate-limit attempt
recorded. -/
theorem invalid_file_not_decrypted (rateAllowed : Nat → Bool) (passwordGiven : Bool)
    (files : List DecFile) (i : Nat) (hi : i < files.length)
    (hbad : verify_age_file (files.getD i default).content = false) :
    i ∉ (standalone_decrypt rateAllowed passwordGiven files).decryptInvoked
    ∧ i ∉ (standalone_decrypt rateAllowed passwordGiven files).attemptsRecorded := by
  have hmem : files.getD i default ∈ files := by
    have hgd : files.getD i default = files[i] := by
      rw [List.getD_eq_getElem?_getD, List.getElem?_eq_getElem hi]
      rfl
    rw [hgd]
    exact List.getElem_mem hi
  have hany : files.any (fun f => !(verify_age_file f.content)) = true :=
    List.any_eq_true.mpr ⟨files.getD i default, hmem, by rw [hbad]; rfl⟩
  unfold standalone_decrypt
  cases hall : (List.range files.length).all rateAllowed <;> simp [hall, hany]

/-- Witness for C4: a single empty file (no marker) is neither decrypted nor
charged a rate-limit attempt. -/
theorem invalid_file_not_decrypted_witness :
    0 ∉ (standalone_decrypt (fun _ => true) true [⟨[], true⟩]).decryptInvoked
    ∧ 0 ∉ (standalone_decrypt (fun _ => true) true [⟨[], true⟩]).attemptsRecorded :=
  invalid_file_not_decrypted (fun _ => true) true [⟨[], true⟩] 0 (by decide) (by decide)

/-- C1 counterexample: when the age run times out while a partial output file
is on disk, encrypt_file returns False yet leaves the partial output file in
place, so the claimed unconditional cleanup does not hold. -/
theorem encrypt_file_timeout_keeps_partial :
    (encrypt_file (.timedOut true)).success = false
    ∧ (encrypt_file (.timedOut true)).outputRemains = true :=
  ⟨rfl, rfl⟩

/-- C1 amended: decrypt_file removes a leftover output file on every failure
path, and encrypt_file does so when the tool run completed (non-zero exit or
missing output) — but encrypt_file performs no such cleanup on timeout or on
a descriptor-level OS error. -/
theorem file_wrappers_cleanup_amended (r : ToolRun) :
    ((decrypt_file r).success = false → (decrypt_file r).outputRemains = false)
    ∧ (∀ exitCode outputExists, r = .completed exitCode outputExists →
        (encrypt_file r).success = false → (encrypt_file r).outputRemains = false) := by
  cases r with
  | completed code ex =>
    by_cases hc : (code == 0 && ex) = true
    · refine ⟨fun h => ?_, fun c e he h => ?_⟩ <;>
        simp [decrypt_file, encrypt_file, hc] at h
    · exact ⟨fun _ => by simp [decrypt_file, hc],
        fun _ _ _ _ => by simp [encrypt_file, hc]⟩
  | timedOut ex => exact ⟨fun _ => rfl, fun _ _ h => by cases h⟩
  | osError ex => exact ⟨fun _ => rfl, fun _ _ h => by cases h⟩

/-- Witness for the amended C1: a timed-out decryption leaves no output, and
a non-zero-exit encryption leaves no output. -/
theorem file_wrappers_cleanup_witness :
    (decrypt_file (.timedOut true)).outputRemains = false
    ∧ (encrypt_file (.completed 1 true)).outputRemains = false :=
  ⟨(file_wrappers_cleanup_amended (.timedOut true)).1 rfl,
   (file_wrappers_cleanup_amended (.completed 1 true)).2 1 true rfl (by decide)⟩

/-- C9: wherever the encryption workflow stopped, including a forced failure
of the encryption step after the archive step, the final cleanup removes the
staging directory and any leftover intermediate archive file, so neither
remains on disk afterwards. -/
theorem standalone_encrypt_cleanup_total
    (mkdtempOk copyOk tarCmdOk encryptOk moveOk : Bool) :
    (standalone_encrypt mkdtempOk copyOk tarCmdOk encryptOk moveOk).stagingOnDisk = false
    ∧ (standalone_encrypt mkdtempOk copyOk tarCmdOk encryptOk moveOk).tarOnDisk = false := by
  cases mkdtempOk <;> cases copyOk <;> cases tarCmdOk <;> cases encryptOk <;>
    cases moveOk <;> exact ⟨rfl, rfl⟩

set_option maxRecDepth 16384 in
/-- Every corpus entry is a lowercase word. -/
theorem wordlist_all_lower : PASSPHRASE_WORDLIST.all isLowerWord = true := by decide

set_option maxRecDepth 16384 in
/-- The corpus is non-empty. -/
theorem wordlist_length_pos : 0 < PASSPHRASE_WORDLIST.length := by decide

set_option maxRecDepth 16384 in
/-- The corpus has 1239 entries. -/
theorem wordlist_length_eq : PASSPHRASE_WORDLIST.length = 1239 := by decide

/-- C6: for every word count, the generated passphrase is the hyphen join of
exactly that many tokens, each a lowercase word drawn from the fixed
corpus. -/
theorem generate_passphrase_tokens (pick : Nat → Nat) (numWords : Nat) :
    ∃ tokens : List String,
      tokens.length = numWords
      ∧ (∀ t ∈ tokens, t ∈ PASSPHRASE_WORDLIST ∧ isLowerWord t = true)
      ∧ generate_passphrase pick numWords = String.intercalate "-" tokens := by
  refine ⟨(List.range numWords).map (fun i =>
      PASSPHRASE_WORDLIST.getD (pick i % PASSPHRASE_WORDLIST.length) ""), ?_, ?_, rfl⟩
  · simp
  · intro t ht
    obtain ⟨i, -, rfl⟩ := List.mem_map.mp ht
    have hlt : pick i % PASSPHRASE_WORDLIST.length < PASSPHRASE_WORDLIST.length :=
      Nat.mod_lt _ wordlist_length_pos
    have hmem : PASSPHRASE_WORDLIST.getD (pick i % PASSPHRASE_WORDLIST.length) ""
        ∈ PASSPHRASE_WORDLIST := by
      rw [List.getD_eq_getElem?_getD, List.getElem?_eq_getElem hlt]
      exact List.getElem_mem hlt
    exact ⟨hmem, List.all_eq_true.mp wordlist_all_lower _ hmem⟩

/-- C7: 24 uniform independent draws from the program's corpus carry more
than 225 bits of entropy: 24 times the base-2 logarithm of the corpus size
exceeds 225. -/
theorem passphrase_entropy_exceeds_225 :
    (225 : ℝ) < 24 * Real.logb 2 (PASSPHRASE_WORDLIST.length : ℝ) := by
  rw [wordlist_length_eq]
  push_cast
  have hpow : ((2 : ℝ) ^ (225 : ℕ)) < ((1239 : ℝ) ^ (24 : ℕ)) := by
    have h : (2 : ℕ) ^ 225 < 1239 ^ 24 := by norm_num
    exact_mod_cast h
  have h1 : Real.logb 2 ((2 : ℝ) ^ (225 : ℕ)) = 225 := by
    rw [Real.logb_pow, Real.logb_self_eq_one (by norm_num)]
    norm_num
  have h2 : Real.logb 2 ((1239 : ℝ) ^ (24 : ℕ)) = 24 * Real.logb 2 1239 := by
    rw [Real.logb_pow]
    norm_num
  calc (225 : ℝ) = Real.logb 2 ((2 : ℝ) ^ (225 : ℕ)) := h1.symm
    _ < Real.logb 2 ((1239 : ℝ) ^ (24 : ℕ)) :=
        Real.logb_lt_logb (by norm_num) (by positivity) hpow
    _ = 24 * Real.logb 2 1239 := h2

/-- No base64 alphabet character is the padding character. -/
theorem b64Char_ne_pad (n : Nat) : b64Char n ≠ '=' := by
  have h : ∀ m, m < 64 → B64URL_ALPHABET.getD m 'A' ≠ '=' := by decide
  exact h (n % 64) (Nat.mod_lt _ (by norm_num))

/-- Stripping trailing padding only touches the appended suffix when that
suffix does not strip to nothing. -/
theorem rstripEq_append (xs ys : List Char) (h : rstripEq ys ≠ []) :
    rstripEq (xs ++ ys) = xs ++ rstripEq ys := by
  induction xs with
  | nil => simp
  | cons x xs ih =>
    rw [List.cons_append]
    show (match rstripEq (xs ++ ys) with
      | [] => if x == '=' then [] else [x]
      | d :: ds => x :: d :: ds) = x :: (xs ++ rstripEq ys)
    rw [ih]
    cases hxr : xs ++ rstripEq ys with
    | nil => exact absurd (List.append_eq_nil.mp hxr).2 h
    | cons d ds => rfl

/-- Length of the stripped urlsafe base64 encoding of 3k+1 bytes. -/
theorem rstripEq_len (k : Nat) : ∀ bs : List Nat, bs.length = 3 * k + 1 →
    (rstripEq (b64UrlEncode bs)).length = 4 * k + 2 := by
  induction k with
  | zero =>
    intro bs hbs
    match bs, hbs with
    | [b], _ =>
      have h1 : (b64Char (b / 4) == '=') = false :=
        beq_eq_false_iff_ne.mpr (b64Char_ne_pad _)
      have h2 : (b64Char (b % 4 * 16) == '=') = false :=
        beq_eq_false_iff_ne.mpr (b64Char_ne_pad _)
      simp [b64UrlEncode, rstripEq, h1, h2]
  | succ k ih =>
    intro bs hbs
    match bs with
    | [] => simp at hbs
    | [b1] => simp at hbs
    | [b1, b2] => simp at hbs
    | b1 :: b2 :: b3 :: rest =>
      have hrest : rest.length = 3 * k + 1 := by
        simp [List.length_cons] at hbs
        omega
      have henc : b64UrlEncode (b1 :: b2 :: b3 :: rest)
          = [b64Char (b1 / 4), b64Char (b1 % 4 * 16 + b2 / 16),
             b64Char (b2 % 16 * 4 + b3 / 64), b64Char (b3 % 64)]
            ++ b64UrlEncode rest := rfl
      have hne : rstripEq (b64UrlEncode rest) ≠ [] := by
        intro hnil
        have hlen := ih rest hrest
        rw [hnil] at hlen
        simp at hlen
      rw [henc, rstripEq_append _ _ hne, List.length_append, ih rest hrest]
      simp only [List.length_cons, List.length_nil]
      omega

set_option maxRecDepth 16384 in
/-- C5 counterexample: a successful HSM run that read back the full 256
random bytes yields a passphrase of 342 characters, not 43 as claimed. -/
theorem hsm_passphrase_not_43 :
    ∃ s, generate_passphrase_from_hsm "/usr/lib/libeToken.so" 0 (List.replicate 256 0)
        = some s
      ∧ s.length = 342 ∧ s.length ≠ 43 := by
  have hlen := rstripEq_len 85 (List.replicate 256 0)
    (by rw [List.length_replicate])
  exact ⟨rstripEq (b64UrlEncode (List.replicate 256 0)), rfl,
    by rw [hlen], by rw [hlen]; norm_num⟩

/-- C5 amended: when the module path is allowed and the tool exits cleanly,
the HSM passphrase generator returns no passphrase unless it read back
exactly PKCS11_RANDOM_BYTES = 256 bytes, and on success the passphrase is the
URL-safe base64 encoding of those bytes without padding, 342 characters
long. -/
theorem hsm_passphrase_amended (modulePath : String) (toolExitCode : Int)
    (readBytes : List Nat)
    (hmod : validate_pkcs11_module_path modulePath = true)
    (hexit : toolExitCode = 0) :
    (readBytes.length ≠ PKCS11_RANDOM_BYTES →
      generate_passphrase_from_hsm modulePath toolExitCode readBytes = none)
    ∧ (readBytes.length = PKCS11_RANDOM_BYTES →
      generate_passphrase_from_hsm modulePath toolExitCode readBytes
          = some (rstripEq (b64UrlEncode readBytes))
      ∧ (rstripEq (b64UrlEncode readBytes)).length = 342) := by
  subst hexit
  constructor
  · intro hne
    simp [generate_passphrase_from_hsm, hmod, hne]
  · intro heq
    refine ⟨by simp [generate_passphrase_from_hsm, hmod, heq], ?_⟩
    have h342 := rstripEq_len 85 readBytes
      (by rw [heq]; norm_num [PKCS11_RANDOM_BYTES])
    rw [h342]

set_option maxRecDepth 16384 in
/-- Witness for the amended C5 at 256 zero bytes through an allowed module
path. -/
theorem hsm_passphrase_amended_witness :
    generate_passphrase_from_hsm "/usr/lib/libeToken.so" 0 (List.replicate 256 0)
        = some (rstripEq (b64UrlEncode (List.replicate 256 0)))
    ∧ (rstripEq (b64UrlEncode (List.replicate 256 0))).length = 342 :=
  (hsm_passphrase_amended "/usr/lib/libeToken.so" 0 (List.replicate 256 0)
    (by decide) rfl).2 (by norm_num [PKCS11_RANDOM_BYTES])

end AgeExt
